import Mathlib

/-!
# Verification of the AI-vs-Human text detector (`src/app.py`)

Shallow embedding of the analysis core of `app.py`: ten feature extractors,
the flag aggregation, the score combiner and the sensitivity adjuster.
Python strings are modelled as `List Char`; Python floats as `ℚ` (exact
rational arithmetic, exact where the Python floats carry rounding);
`str.lower()` / `str.isupper()` are modelled at the ASCII level (the
vocabularies bundled with the program are ASCII or Chinese, and Chinese
characters are uncased in Python exactly as in this model).
-/

/-- Model of the whitespace class used by Python `str.split()` and
`str.strip()` (space, tab, newline, carriage return, vertical tab, form
feed). -/
def isPySpace (c : Char) : Bool :=
  c.toNat = 32 || c.toNat = 9 || c.toNat = 10 || c.toNat = 13 ||
  c.toNat = 11 || c.toNat = 12

/-- Model of Python `str.lower()` on one character (ASCII case mapping;
characters outside A–Z, in particular Chinese, are unchanged). -/
def pyLower (c : Char) : Char :=
  if 65 ≤ c.toNat && c.toNat ≤ 90 then Char.ofNat (c.toNat + 32) else c

/-- Model of Python `str.isupper()` on one character (ASCII). -/
def isPyUpper (c : Char) : Bool :=
  65 ≤ c.toNat && c.toNat ≤ 90

/-- Fuel-indexed worker for `pySplit` (structural recursion on the fuel, so
that the kernel can evaluate it); `fuel ≥ s.length` always suffices. -/
def pySplitFuel : Nat → List Char → List (List Char)
  | 0, _ => []
  | _ + 1, [] => []
  | fuel + 1, c :: rest =>
    if isPySpace c then pySplitFuel fuel rest
    else (c :: rest.takeWhile (fun d => !(isPySpace d))) ::
         pySplitFuel fuel (rest.dropWhile (fun d => !(isPySpace d)))

/-- Model of Python `text.split()`: split on runs of whitespace, discarding
empty tokens. -/
def pySplit (s : List Char) : List (List Char) :=
  pySplitFuel s.length s

/-- Model of Python `text.split(sep)` for a one-character separator:
split at every separator, keeping empty pieces. -/
def splitOnSep (sep : Char) : List Char → List (List Char)
  | [] => [[]]
  | c :: rest =>
    if c = sep then [] :: splitOnSep sep rest
    else
      match splitOnSep sep rest with
      | [] => [[c]]
      | w :: ws => (c :: w) :: ws

/-- Model of Python `str.strip()`: remove leading and trailing whitespace. -/
def pyStrip (s : List Char) : List Char :=
  ((s.dropWhile isPySpace).reverse.dropWhile isPySpace).reverse

/-- `startsWith pat s` holds iff `pat` is an initial segment of `s`. -/
def startsWith : List Char → List Char → Bool
  | [], _ => true
  | _ :: _, [] => false
  | p :: ps, c :: cs => p == c && startsWith ps cs

/-- Model of Python `pat in s` (substring containment). -/
def containsSub (pat : List Char) : List Char → Bool
  | [] => pat.isEmpty
  | c :: rest => startsWith pat (c :: rest) || containsSub pat rest

/-- Fuel-indexed worker for `countOccs` (structural recursion on the fuel);
`fuel ≥ l.length` always suffices for a non-empty pattern. -/
def countOccsFuel (pat : List Char) : Nat → List Char → Nat
  | 0, _ => 0
  | _ + 1, [] => 0
  | fuel + 1, c :: rest =>
    if !pat.isEmpty && startsWith pat (c :: rest)
    then 1 + countOccsFuel pat fuel (rest.drop (pat.length - 1))
    else countOccsFuel pat fuel rest

/-- Model of Python `s.count(pat)` for a non-empty pattern: number of
non-overlapping occurrences, scanning left to right. -/
def countOccs (pat l : List Char) : Nat :=
  countOccsFuel pat l.length l

/-- The apostrophe character (U+0027), used by the contraction vocabulary. -/
def apos : Char := Char.ofNat 39

/-- Builds a vocabulary item containing one apostrophe from the parts
before and after it. -/
def withApos (a b : String) : List Char := a.data ++ [apos] ++ b.data

/-- numpy `np.mean` on a list of naturals, in ℚ. -/
def listMean (l : List Nat) : ℚ := (l.map (fun x => (x : ℚ))).sum / l.length

/-- numpy `np.var` (population variance) on a list of naturals, in ℚ. -/
def listVar (l : List Nat) : ℚ :=
  (l.map (fun x => ((x : ℚ) - listMean l) ^ 2)).sum / l.length

/-- The Chinese full stop `。`, the sentence terminator used by
`check_grammar_perfection` and `analyze_structure`. -/
def sentenceSep : Char := Char.ofNat 12290

/-! ## The ten feature extractors (`app.py` lines 9–141) -/

/-- `count_repeated_phrases` (app.py:9–20): lowercase whitespace tokens,
all contiguous 3-token windows joined by a space, number of distinct
windows occurring more than twice. -/
def count_repeated_phrases (text : List Char) : ℕ :=
  let words := pySplit (text.map pyLower)
  if words.length < 3 then 0
  else
    let phrases := (List.range (words.length - 2)).map
      (fun i => List.intercalate [' '] ((words.drop i).take 3))
    (phrases.dedup.filter (fun w => phrases.count w > 2)).length

/-- The formal-connective vocabulary of `detect_formal_language`. -/
def formal_words : List (List Char) :=
  (["furthermore", "moreover", "consequently", "therefore",
    "nevertheless", "however", "regarding", "facilitate",
    "implement", "subsequent", "adjacent", "因此", "然而", "儘管"]).map String.data

/-- `detect_formal_language` (app.py:23–33): number of vocabulary terms
occurring in the lowercased text (each term counted at most once),
capped as `min 1 (count / 3)`. -/
def detect_formal_language (text : List Char) : ℚ :=
  min 1 ((formal_words.countP (fun w => containsSub w (text.map pyLower)) : ℚ) / 3)

/-- `check_grammar_perfection` (app.py:36–47): double-space occurrences
plus sentences (split on `。`) whose first stripped character is not
uppercase; `max 0 (1 - errors / max 1 (tokenCount / 10))`. -/
def check_grammar_perfection (text : List Char) : ℚ :=
  let dbl : ℕ :=
    if containsSub (' ' :: [' ']) text then countOccs (' ' :: [' ']) text else 0
  let sentences := splitOnSep sentenceSep text
  let cap_errors : ℕ := sentences.countP
    (fun s => !(pyStrip s).isEmpty && !(isPyUpper ((pyStrip s).headD ' ')))
  let errors : ℕ := dbl + cap_errors
  max 0 (1 - (errors : ℚ) / max 1 (((pySplit text).length : ℚ) / 10))

/-- The formulaic-phrase vocabulary of `check_formulaic_patterns`. -/
def formulaic_patterns : List (List Char) :=
  [withApos "in today" "s world", "it is important to".data,
   "in conclusion".data, "furthermore".data,
   "在當今世界".data, "重要的是".data, "總之".data, "此外".data]

/-- `check_formulaic_patterns` (app.py:50–65): true iff at least 2 of the
formulaic phrases occur in the lowercased text. -/
def check_formulaic_patterns (text : List Char) : Bool :=
  formulaic_patterns.countP (fun p => containsSub p (text.map pyLower)) ≥ 2

/-- `analyze_structure` (app.py:68–79): token counts of the stripped
non-empty sentences; 0 if fewer than 2 sentences, otherwise
`1 - min 1 ((variance / (mean + 1)) / 3)`. -/
def analyze_structure (text : List Char) : ℚ :=
  let sentences := ((splitOnSep sentenceSep text).map pyStrip).filter
    (fun s => !s.isEmpty)
  if sentences.length < 2 then 0
  else
    let lengths := sentences.map (fun s => (pySplit s).length)
    let variance := if lengths.length > 1 then listVar lengths else 0
    let mean_len := if !lengths.isEmpty then listMean lengths else 1
    let cv := variance / (mean_len + 1)
    1 - min 1 (cv / 3)

/-- The contraction vocabulary of `count_contractions`. -/
def contractions_list : List (List Char) :=
  [withApos "can" "t", withApos "don" "t", withApos "won" "t",
   withApos "isn" "t", withApos "hasn" "t", withApos "haven" "t",
   withApos "shouldn" "t", withApos "couldn" "t", withApos "wouldn" "t",
   withApos "that" "s", withApos "it" "s", withApos "i" "m",
   withApos "you" "re", withApos "i" "ve"]

/-- `count_contractions` (app.py:82–91): total occurrence count of every
contraction in the lowercased text. -/
def count_contractions (text : List Char) : ℕ :=
  (contractions_list.map (fun c => countOccs c (text.map pyLower))).sum

/-- The doubled-word vocabulary of `detect_natural_errors`. -/
def double_words : List (List Char) :=
  (["the the", "and and", "a a", "的的", "和和"]).map String.data

/-- `detect_natural_errors` (app.py:94–102): total occurrence count of the
doubled words in the lowercased text, divided by `max 1 (tokenCount/10)`. -/
def detect_natural_errors (text : List Char) : ℚ :=
  let errors : ℕ := (double_words.map (fun w => countOccs w (text.map pyLower))).sum
  (errors : ℚ) / max 1 (((pySplit text).length : ℚ) / 10)

/-- The emotion-word vocabulary of `detect_emotional_language`. -/
def emotional_words : List (List Char) :=
  (["love", "hate", "beautiful", "terrible", "wonderful",
    "awful", "amazing", "fantastic", "horrible", "feel",
    "喜歡", "討厭", "美", "可怕", "棒", "糟糕", "感受"]).map String.data

/-- `detect_emotional_language` (app.py:105–115): number of emotion words
present in the lowercased text, divided by `max 1 (tokenCount/5)`. -/
def detect_emotional_language (text : List Char) : ℚ :=
  let count : ℕ := emotional_words.countP (fun w => containsSub w (text.map pyLower))
  (count : ℚ) / max 1 (((pySplit text).length : ℚ) / 5)

/-- The casual-phrase vocabulary of `detect_casual_language`. -/
def casual_words : List (List Char) :=
  (["like", "you know", "basically", "literally",
    "actually", "honestly", "pretty", "kind of",
    "sort of", "gonna", "wanna", "就像", "你知道", "基本上"]).map String.data

/-- `detect_casual_language` (app.py:118–128): number of casual phrases
present in the lowercased text, divided by `max 1 (tokenCount/5)`. -/
def detect_casual_language (text : List Char) : ℚ :=
  let count : ℕ := casual_words.countP (fun w => containsSub w (text.map pyLower))
  (count : ℚ) / max 1 (((pySplit text).length : ℚ) / 5)

/-- The first-person-opinion vocabulary of `detect_personal_opinions`. -/
def opinion_words : List (List Char) :=
  (["i think", "i believe", "my opinion", "i would say",
    "personally", "to me", "in my view",
    "我認為", "我相信", "我的看法", "個人來說"]).map String.data

/-- `detect_personal_opinions` (app.py:131–141): number of opinion phrases
present in the lowercased text, divided by `max 1 (tokenCount/5)`. -/
def detect_personal_opinions (text : List Char) : ℚ :=
  let count : ℕ := opinion_words.countP (fun w => containsSub w (text.map pyLower))
  (count : ℚ) / max 1 (((pySplit text).length : ℚ) / 5)

/-! ## Aggregation, combining and sensitivity adjustment
(`analyze_text`, app.py:144–236).  The local variables of the Python
function (`ai_scores`, `ai_base`, `human_base`, `total`, `ai_score`) are
named top-level definitions here so each pipeline stage can be reasoned
about; `analyze_text` below composes them exactly as the source does. -/

/-- The list of AI-group weight contributions appended by app.py:148–179
(one fixed weight per true AI feature flag). -/
def ai_scores (text : List Char) : List ℚ :=
  (if count_repeated_phrases text > 3 then [(0.15 : ℚ)] else []) ++
  (if detect_formal_language text > 0.6 then [(0.12 : ℚ)] else []) ++
  (if check_grammar_perfection text > 0.8 then [(0.12 : ℚ)] else []) ++
  (if check_formulaic_patterns text then [(0.10 : ℚ)] else []) ++
  (if analyze_structure text > 0.7 then [(0.10 : ℚ)] else [])

/-- The list of Human-group weight contributions appended by
app.py:182–213. -/
def human_scores (text : List Char) : List ℚ :=
  (if count_contractions text > 1 then [(0.15 : ℚ)] else []) ++
  (if detect_natural_errors text > 0.01 then [(0.12 : ℚ)] else []) ++
  (if detect_emotional_language text > 0.05 then [(0.15 : ℚ)] else []) ++
  (if detect_casual_language text > 0.05 then [(0.12 : ℚ)] else []) ++
  (if detect_personal_opinions text > 0.05 then [(0.10 : ℚ)] else [])

/-- The ordered AI feature-flag map (`ai_features` in app.py:148–179). -/
def ai_features (text : List Char) : List (String × Bool) :=
  [("重複短語多", decide (count_repeated_phrases text > 3)),
   ("過度正式", decide (detect_formal_language text > 0.6)),
   ("語法完美", decide (check_grammar_perfection text > 0.8)),
   ("模式化短語", check_formulaic_patterns text),
   ("結構過規律", decide (analyze_structure text > 0.7))]

/-- The ordered Human feature-flag map (`human_features` in
app.py:182–213). -/
def human_features (text : List Char) : List (String × Bool) :=
  [("使用縮寫", decide (count_contractions text > 1)),
   ("自然錯誤", decide (detect_natural_errors text > 0.01)),
   ("情感表現", decide (detect_emotional_language text > 0.05)),
   ("口語用詞", decide (detect_casual_language text > 0.05)),
   ("個人觀點", decide (detect_personal_opinions text > 0.05))]

/-- `ai_base` (app.py:216): `min(0.95, sum(ai_scores) + 0.15)`. -/
def ai_base (text : List Char) : ℚ :=
  min 0.95 ((ai_scores text).sum + 0.15)

/-- `human_base` (app.py:217): `min(0.95, sum(human_scores) + 0.1)`. -/
def human_base (text : List Char) : ℚ :=
  min 0.95 ((human_scores text).sum + 0.1)

/-- The pre-adjustment AI probability (app.py:219–220):
`ai_base / total` when `total > 0`, else `0.5`. -/
def pre_ai_score (text : List Char) : ℚ :=
  let total := ai_base text + human_base text
  if total > 0 then ai_base text / total else 0.5

/-- The sensitivity adjustment applied to the AI probability
(app.py:224–229). -/
def adjust_sensitivity (ai_score sensitivity : ℚ) : ℚ :=
  if sensitivity < 0.75 then ai_score * 0.85
  else if sensitivity > 0.85 then min 0.99 (ai_score * 1.15)
  else ai_score

/-- The Analysis Result returned by `analyze_text` (app.py:236): the score
pair and the two ordered feature-flag maps. -/
structure AnalysisResult where
  ai_score : ℚ
  human_score : ℚ
  ai_features : List (String × Bool)
  human_features : List (String × Bool)
  deriving DecidableEq, Repr

/-- `analyze_text` (app.py:144–236).  As in the source, the human score is
first set to `1 - ai_score` (app.py:221) and then recomputed as the
complement of the adjusted AI score in each sensitivity branch that fires
(app.py:226, 229), and left untouched otherwise. -/
def analyze_text (text : List Char) (sensitivity : ℚ) : AnalysisResult :=
  let ai_score0 := pre_ai_score text
  let human_score0 := 1 - ai_score0
  let ai_score1 := adjust_sensitivity ai_score0 sensitivity
  let human_score1 :=
    if sensitivity < 0.75 then 1 - ai_score1
    else if sensitivity > 0.85 then 1 - ai_score1
    else human_score0
  { ai_score := ai_score1
    human_score := human_score1
    ai_features := ai_features text
    human_features := human_features text }

/-! ## Helper lemmas -/

lemma ai_scores_sum_bounds (t : List Char) :
    0 ≤ (ai_scores t).sum ∧ (ai_scores t).sum ≤ 0.59 := by
  unfold ai_scores
  split_ifs <;> simp only [List.sum_append, List.sum_cons, List.sum_nil] <;> norm_num

lemma human_scores_sum_bounds (t : List Char) :
    0 ≤ (human_scores t).sum ∧ (human_scores t).sum ≤ 0.64 := by
  unfold human_scores
  split_ifs <;> simp only [List.sum_append, List.sum_cons, List.sum_nil] <;> norm_num

/-- The 0.95 cap of app.py:216 never binds: the AI group sum is at most
0.59, so the base is the sum plus the 0.15 baseline. -/
lemma ai_base_eq (t : List Char) : ai_base t = (ai_scores t).sum + 0.15 := by
  have h := (ai_scores_sum_bounds t).2
  unfold ai_base
  rw [min_eq_right (by linarith)]

/-- The 0.95 cap of app.py:217 never binds either. -/
lemma human_base_eq (t : List Char) : human_base t = (human_scores t).sum + 0.1 := by
  have h := (human_scores_sum_bounds t).2
  unfold human_base
  rw [min_eq_right (by linarith)]

lemma ai_base_bounds (t : List Char) : 0.15 ≤ ai_base t ∧ ai_base t ≤ 0.74 := by
  have h := ai_scores_sum_bounds t
  rw [ai_base_eq]
  constructor <;> linarith [h.1, h.2]

lemma human_base_bounds (t : List Char) : 0.1 ≤ human_base t ∧ human_base t ≤ 0.74 := by
  have h := human_scores_sum_bounds t
  rw [human_base_eq]
  constructor <;> linarith [h.1, h.2]

lemma total_pos (t : List Char) : 0 < ai_base t + human_base t := by
  have h1 := (ai_base_bounds t).1
  have h2 := (human_base_bounds t).1
  linarith

lemma pre_ai_score_eq (t : List Char) :
    pre_ai_score t = ai_base t / (ai_base t + human_base t) := by
  simp only [pre_ai_score]
  rw [if_pos (total_pos t)]

lemma pre_ai_score_pos (t : List Char) : 0 < pre_ai_score t := by
  rw [pre_ai_score_eq]
  exact div_pos (by linarith [(ai_base_bounds t).1]) (total_pos t)

lemma pre_ai_score_lt_one (t : List Char) : pre_ai_score t < 1 := by
  rw [pre_ai_score_eq]
  rw [div_lt_one (total_pos t)]
  linarith [(human_base_bounds t).1]

/-- The pre-adjustment AI probability is at most 0.74 / 0.84 < 0.9. -/
lemma pre_ai_score_le (t : List Char) : pre_ai_score t ≤ 0.9 := by
  rw [pre_ai_score_eq, div_le_iff₀ (total_pos t)]
  have h1 := (ai_base_bounds t).2
  have h2 := (human_base_bounds t).1
  have h3 := (ai_base_bounds t).1
  nlinarith

lemma analyze_ai_eq (t : List Char) (s : ℚ) :
    (analyze_text t s).ai_score = adjust_sensitivity (pre_ai_score t) s := rfl

lemma analyze_human_eq (t : List Char) (s : ℚ) :
    (analyze_text t s).human_score = 1 - (analyze_text t s).ai_score := by
  simp only [analyze_text, adjust_sensitivity]
  split_ifs <;> rfl

lemma adjust_sensitivity_bounds (p s : ℚ) (h0 : 0 ≤ p) (h1 : p ≤ 1) :
    0 ≤ adjust_sensitivity p s ∧ adjust_sensitivity p s ≤ 1 := by
  unfold adjust_sensitivity
  split_ifs
  · constructor <;> nlinarith
  · refine ⟨le_min (by norm_num) (by nlinarith), ?_⟩
    calc min 0.99 (p * 1.15) ≤ 0.99 := min_le_left _ _
    _ ≤ 1 := by norm_num
  · exact ⟨h0, h1⟩

lemma cast_map_sum_nonneg (l : List Nat) : 0 ≤ (l.map (fun x => (x : ℚ))).sum := by
  induction l with
  | nil => exact le_rfl
  | cons a as ih => exact add_nonneg (Nat.cast_nonneg a) ih

lemma sq_map_sum_nonneg (l : List Nat) (m : ℚ) :
    0 ≤ (l.map (fun x => ((x : ℚ) - m) ^ 2)).sum := by
  induction l with
  | nil => exact le_rfl
  | cons a as ih => exact add_nonneg (sq_nonneg _) ih

lemma listMean_nonneg (l : List Nat) : 0 ≤ listMean l := by
  unfold listMean
  exact div_nonneg (cast_map_sum_nonneg l) (Nat.cast_nonneg _)

lemma listVar_nonneg (l : List Nat) : 0 ≤ listVar l := by
  unfold listVar
  exact div_nonneg (sq_map_sum_nonneg l (listMean l)) (Nat.cast_nonneg _)

/-- Evaluation of the sensitivity adjuster on its three branches at the
three sensitivities named by the spec. -/
lemma adjust_at_06 (p : ℚ) : adjust_sensitivity p 0.6 = p * 0.85 := by
  unfold adjust_sensitivity
  rw [if_pos (by norm_num)]

lemma adjust_at_08 (p : ℚ) : adjust_sensitivity p 0.8 = p := by
  unfold adjust_sensitivity
  rw [if_neg (by norm_num), if_neg (by norm_num)]

lemma adjust_at_09 (p : ℚ) : adjust_sensitivity p 0.9 = min 0.99 (p * 1.15) := by
  unfold adjust_sensitivity
  rw [if_neg (by norm_num), if_pos (by norm_num)]

lemma adjust_identity (p s : ℚ) (h1 : 0.75 ≤ s) (h2 : s ≤ 0.85) :
    adjust_sensitivity p s = p := by
  unfold adjust_sensitivity
  rw [if_neg (by linarith), if_neg (by linarith)]

/-! ## Claim theorems -/

/-- C1: for every text and every sensitivity `s ∈ [0.5, 1.0]`, both
components of the Score Pair lie in `[0,1]` and AI probability plus Human
probability equals 1, both before the sensitivity adjustment
(`pre_ai_score` and its complement, app.py:220–221) and after it
(the scores returned by `analyze_text`). -/
theorem C1_score_pair_invariant (t : List Char) (s : ℚ)
    (h05 : 0.5 ≤ s) (h10 : s ≤ 1) :
    (0 ≤ pre_ai_score t ∧ pre_ai_score t ≤ 1 ∧
      0 ≤ 1 - pre_ai_score t ∧ 1 - pre_ai_score t ≤ 1 ∧
      pre_ai_score t + (1 - pre_ai_score t) = 1) ∧
    (0 ≤ (analyze_text t s).ai_score ∧ (analyze_text t s).ai_score ≤ 1 ∧
      0 ≤ (analyze_text t s).human_score ∧ (analyze_text t s).human_score ≤ 1 ∧
      (analyze_text t s).ai_score + (analyze_text t s).human_score = 1) := by
  have hp := pre_ai_score_pos t
  have hl := pre_ai_score_lt_one t
  have hadj := adjust_sensitivity_bounds (pre_ai_score t) s (le_of_lt hp) (le_of_lt hl)
  have hh := analyze_human_eq t s
  have hai := analyze_ai_eq t s
  rw [← hai] at hadj
  refine ⟨⟨le_of_lt hp, le_of_lt hl, by linarith, by linarith, by ring⟩,
    hadj.1, hadj.2, ?_, ?_, ?_⟩
  · rw [hh]; linarith [hadj.2]
  · rw [hh]; linarith [hadj.1]
  · rw [hh]; ring

/-- Witness for C1 at a concrete text and sensitivity 0.8. -/
theorem C1_witness :
    (analyze_text "hello world".data 0.8).ai_score +
      (analyze_text "hello world".data 0.8).human_score = 1 :=
  (C1_score_pair_invariant "hello world".data 0.8 (by norm_num)
    (by norm_num)).2.2.2.2.2

/-- C10 (implicit): the zero-total fallback of app.py:220 is unreachable —
the additive baselines force `ai_base ≥ 0.15` and `human_base ≥ 0.10`, so
the total is at least 0.25 and the pre-adjustment AI probability is always
the quotient `ai_base / total`. -/
theorem C10_fallback_unreachable (t : List Char) :
    0.15 ≤ ai_base t ∧ 0.1 ≤ human_base t ∧
    0.25 ≤ ai_base t + human_base t ∧ 0 < ai_base t + human_base t ∧
    pre_ai_score t = ai_base t / (ai_base t + human_base t) := by
  have h1 := (ai_base_bounds t).1
  have h2 := (human_base_bounds t).1
  exact ⟨h1, h2, by linarith, total_pos t, pre_ai_score_eq t⟩

/-- C2: the Score Combiner (app.py:216–221).  The bases are the capped
weighted sums plus baselines; the pre-adjustment AI probability is
`ai_base / total` when `total > 0` and `0.5` otherwise, and the Human
probability is its complement.  Sensitivity 0.8 falls in the unchanged
branch, so `analyze_text` exposes exactly the pre-adjustment pair. -/
theorem C2_score_combiner (t : List Char) :
    ai_base t = min 0.95 ((ai_scores t).sum + 0.15) ∧
    human_base t = min 0.95 ((human_scores t).sum + 0.1) ∧
    pre_ai_score t =
      (if 0 < ai_base t + human_base t
       then ai_base t / (ai_base t + human_base t) else 0.5) ∧
    (analyze_text t 0.8).ai_score = pre_ai_score t ∧
    (analyze_text t 0.8).human_score = 1 - pre_ai_score t := by
  refine ⟨rfl, rfl, rfl, ?_, ?_⟩
  · rw [analyze_ai_eq, adjust_at_08]
  · rw [analyze_human_eq, analyze_ai_eq, adjust_at_08]

/-- C3: the Sensitivity Adjuster (app.py:224–229) multiplies by 0.85 when
`s < 0.75`, by 1.15 capped at 0.99 when `s > 0.85`, and is the identity in
between — in particular at exactly 0.75 and exactly 0.85 — and the Human
probability is recomputed as the complement of the adjusted AI
probability. -/
theorem C3_sensitivity_adjuster (t : List Char) (p s : ℚ) :
    adjust_sensitivity p s =
      (if s < 0.75 then p * 0.85
       else if s > 0.85 then min 0.99 (p * 1.15) else p) ∧
    adjust_sensitivity p 0.75 = p ∧
    adjust_sensitivity p 0.85 = p ∧
    (analyze_text t s).ai_score = adjust_sensitivity (pre_ai_score t) s ∧
    (analyze_text t s).human_score = 1 - (analyze_text t s).ai_score :=
  ⟨rfl, adjust_identity p 0.75 (by norm_num) (by norm_num),
    adjust_identity p 0.85 (by norm_num) (by norm_num),
    analyze_ai_eq t s, analyze_human_eq t s⟩

/-- C4: for a fixed text the final AI probability is monotone across the
three sensitivity branches: value at s=0.6 ≤ value at s=0.8 ≤ value at
s=0.9 (all three start from the same pre-adjustment base). -/
theorem C4_sensitivity_monotonicity (t : List Char) :
    (analyze_text t 0.6).ai_score ≤ (analyze_text t 0.8).ai_score ∧
    (analyze_text t 0.8).ai_score ≤ (analyze_text t 0.9).ai_score := by
  have hp := pre_ai_score_pos t
  have hle := pre_ai_score_le t
  simp only [analyze_ai_eq, adjust_at_06, adjust_at_08, adjust_at_09]
  constructor
  · nlinarith
  · exact le_min (by linarith) (by nlinarith)

/-- Counterexample to C5 as stated: the text `furthermore furthermore
furthermore` contains the vocabulary term `furthermore` three times
(`countOccs` = 3), yet the Formal-Language Score is 1/3, not 1.0 — the
extractor counts vocabulary terms *present*, not their occurrences
(app.py:32 tests membership once per term). -/
theorem C5_counterexample :
    countOccs "furthermore".data "furthermore furthermore furthermore".data = 3 ∧
    detect_formal_language "furthermore furthermore furthermore".data = 1/3 ∧
    ((1 : ℚ)/3) ≠ 1 := by
  refine ⟨by decide, ?_, by norm_num⟩
  have h : formal_words.countP
      (fun w => containsSub w
        (("furthermore furthermore furthermore".data).map pyLower)) = 1 := by decide
  simp only [detect_formal_language, h]
  norm_num

/-- C5 (amended): the Formal-Language Score extractor counts the number of
*distinct* vocabulary terms occurring (case-insensitive substring match) in
the text — each term contributing at most once however often it occurs —
and returns `min 1 (count / 3)`; a text containing at least three distinct
vocabulary terms scores 1.0. -/
theorem C5_formal_language_amended (t : List Char) :
    detect_formal_language t =
      min 1 ((formal_words.countP (fun w => containsSub w (t.map pyLower)) : ℚ) / 3) ∧
    (3 ≤ formal_words.countP (fun w => containsSub w (t.map pyLower)) →
      detect_formal_language t = 1) := by
  refine ⟨rfl, fun h3 => ?_⟩
  unfold detect_formal_language
  rw [min_eq_left]
  have : (3 : ℚ) ≤ (formal_words.countP (fun w => containsSub w (t.map pyLower)) : ℚ) := by
    exact_mod_cast h3
  rw [le_div_iff₀ (by norm_num)]
  linarith

/-- Witness for the amended C5: three distinct formal terms give score 1. -/
theorem C5_witness :
    3 ≤ formal_words.countP
      (fun w => containsSub w ("furthermore moreover therefore".data.map pyLower)) ∧
    detect_formal_language "furthermore moreover therefore".data = 1 :=
  ⟨by decide,
    (C5_formal_language_amended "furthermore moreover therefore".data).2 (by decide)⟩

/-- C6: a text whose (lowercased) whitespace split is exactly three
identical tokens produces exactly one 3-token window, that window occurs
once, 1 is not greater than 2, and the Repeated-Phrase Count is 0. -/
theorem C6_three_identical_tokens (t w : List Char)
    (h : pySplit (t.map pyLower) = [w, w, w]) :
    count_repeated_phrases t = 0 ∧
    (List.range ([w, w, w].length - 2)).map
      (fun i => List.intercalate [' '] (([w, w, w].drop i).take 3)) =
      [List.intercalate [' '] [w, w, w]] ∧
    [List.intercalate [' '] [w, w, w]].count (List.intercalate [' '] [w, w, w]) = 1 ∧
    ¬ (1 > 2) := by
  have hwin : (List.range ([w, w, w].length - 2)).map
      (fun i => List.intercalate [' '] (([w, w, w].drop i).take 3)) =
      [List.intercalate [' '] [w, w, w]] := rfl
  refine ⟨?_, hwin, by simp, by norm_num⟩
  simp only [count_repeated_phrases, h]
  rw [if_neg (by norm_num), hwin,
    List.dedup_cons_of_not_mem (List.not_mem_nil _), List.dedup_nil]
  simp

/-- Witness for C6 at the text `x x x`. -/
theorem C6_witness :
    pySplit ("x x x".data.map pyLower) = ["x".data, "x".data, "x".data] ∧
    count_repeated_phrases "x x x".data = 0 :=
  ⟨by decide,
    (C6_three_identical_tokens "x x x".data "x".data (by decide)).1⟩

lemma one_sub_min_bounds (x : ℚ) (hx : 0 ≤ x) :
    0 ≤ 1 - min 1 x ∧ 1 - min 1 x ≤ 1 := by
  have h1 := min_le_left 1 x
  have h2 : 0 ≤ min 1 x := le_min (by norm_num) hx
  constructor <;> linarith

lemma grammar_shape_bounds (e : ℕ) (y : ℚ) :
    0 ≤ max 0 (1 - (e : ℚ) / max 1 y) ∧ max 0 (1 - (e : ℚ) / max 1 y) ≤ 1 := by
  refine ⟨le_max_left _ _, max_le (by norm_num) ?_⟩
  have hm : (0 : ℚ) < max 1 y := lt_of_lt_of_le one_pos (le_max_left _ _)
  have hd : 0 ≤ (e : ℚ) / max 1 y := div_nonneg (Nat.cast_nonneg e) (le_of_lt hm)
  linarith

lemma analyze_structure_bounds (t : List Char) :
    0 ≤ analyze_structure t ∧ analyze_structure t ≤ 1 := by
  simp only [analyze_structure]
  split_ifs
  all_goals
    first
      | exact one_sub_min_bounds _ (div_nonneg (div_nonneg (listVar_nonneg _)
          (add_nonneg (listMean_nonneg _) zero_le_one)) (by norm_num))
      | exact one_sub_min_bounds _ (div_nonneg (div_nonneg (listVar_nonneg _)
          (add_nonneg zero_le_one zero_le_one)) (by norm_num))
      | exact one_sub_min_bounds _ (div_nonneg (div_nonneg le_rfl
          (add_nonneg (listMean_nonneg _) zero_le_one)) (by norm_num))
      | exact one_sub_min_bounds _ (div_nonneg (div_nonneg le_rfl
          (add_nonneg zero_le_one zero_le_one)) (by norm_num))
      | norm_num

/-- C7: every extractor stays within its documented bound — the
Formal-Language Score, the Grammar-Perfection Score and the
Structural-Regularity Score lie in `[0,1]`, and the Repeated-Phrase Count
is a non-negative integer. -/
theorem C7_extractor_bounds (t : List Char) :
    (0 ≤ detect_formal_language t ∧ detect_formal_language t ≤ 1) ∧
    0 ≤ count_repeated_phrases t ∧
    (0 ≤ check_grammar_perfection t ∧ check_grammar_perfection t ≤ 1) ∧
    (0 ≤ analyze_structure t ∧ analyze_structure t ≤ 1) := by
  refine ⟨⟨le_min (by norm_num) (by positivity), min_le_left _ _⟩,
    Nat.zero_le _, ?_, analyze_structure_bounds t⟩
  simp only [check_grammar_perfection]
  exact grammar_shape_bounds _ _

/-- C8: the pipeline is a deterministic pure function — two calls of
`analyze_text` with identical text and identical sensitivity yield
identical Analysis Results (score pair and both feature-flag maps). -/
theorem C8_deterministic (t1 t2 : List Char) (s1 s2 : ℚ)
    (ht : t1 = t2) (hs : s1 = s2) :
    analyze_text t1 s1 = analyze_text t2 s2 := by
  rw [ht, hs]

/-- Witness for C8 at a concrete text and sensitivity. -/
theorem C8_witness :
    analyze_text "hello there".data (3/4) = analyze_text "hello there".data (3/4) :=
  C8_deterministic _ _ _ _ rfl rfl

/-- C9: no extractor fails on degenerate input (all ten are total
functions of the text in this model); the degenerate cases are explicit
neutral returns — fewer than 3 tokens gives Repeated-Phrase Count 0,
fewer than 2 sentences gives Structural-Regularity 0, every division has
its denominator floored by `max 1 _ ≥ 1`, and on the empty string every
extractor returns its explicit zero/neutral value. -/
theorem C9_degenerate_inputs (t : List Char) :
    ((pySplit (t.map pyLower)).length < 3 → count_repeated_phrases t = 0) ∧
    ((((splitOnSep sentenceSep t).map pyStrip).filter
        (fun s => !s.isEmpty)).length < 2 → analyze_structure t = 0) ∧
    1 ≤ max 1 (((pySplit t).length : ℚ) / 10) ∧
    1 ≤ max 1 (((pySplit t).length : ℚ) / 5) ∧
    count_repeated_phrases [] = 0 ∧
    detect_formal_language [] = 0 ∧
    check_grammar_perfection [] = 1 ∧
    check_formulaic_patterns [] = false ∧
    analyze_structure [] = 0 ∧
    count_contractions [] = 0 ∧
    detect_natural_errors [] = 0 ∧
    detect_emotional_language [] = 0 ∧
    detect_casual_language [] = 0 ∧
    detect_personal_opinions [] = 0 := by
  refine ⟨?_, ?_, le_max_left _ _, le_max_left _ _, by decide, ?_, ?_, by decide,
    ?_, by decide, ?_, ?_, ?_, ?_⟩
  · intro h
    simp only [count_repeated_phrases]
    rw [if_pos h]
  · intro h
    simp only [analyze_structure]
    rw [if_pos h]
  · have h : formal_words.countP
        (fun w => containsSub w (([] : List Char).map pyLower)) = 0 := by decide
    simp only [detect_formal_language, h]
    norm_num
  · have h1 : containsSub (' ' :: [' ']) ([] : List Char) = false := by decide
    have h2 : (splitOnSep sentenceSep ([] : List Char)).countP
        (fun s => !(pyStrip s).isEmpty && !(isPyUpper ((pyStrip s).headD ' '))) = 0 := by
      decide
    have h3 : (pySplit ([] : List Char)).length = 0 := by decide
    simp only [check_grammar_perfection, h1, h2, h3]
    norm_num
  · simp only [analyze_structure]
    rw [if_pos (by decide)]
  · have h : (double_words.map
        (fun w => countOccs w (([] : List Char).map pyLower))).sum = 0 := by decide
    have h3 : (pySplit ([] : List Char)).length = 0 := by decide
    simp only [detect_natural_errors, h, h3]
    norm_num
  · have h : emotional_words.countP
        (fun w => containsSub w (([] : List Char).map pyLower)) = 0 := by decide
    have h3 : (pySplit ([] : List Char)).length = 0 := by decide
    simp only [detect_emotional_language, h, h3]
    norm_num
  · have h : casual_words.countP
        (fun w => containsSub w (([] : List Char).map pyLower)) = 0 := by decide
    have h3 : (pySplit ([] : List Char)).length = 0 := by decide
    simp only [detect_casual_language, h, h3]
    norm_num
  · have h : opinion_words.countP
        (fun w => containsSub w (([] : List Char).map pyLower)) = 0 := by decide
    have h3 : (pySplit ([] : List Char)).length = 0 := by decide
    simp only [detect_personal_opinions, h, h3]
    norm_num

/-- Witness for C9 at the empty string (which has fewer than 3 tokens and
fewer than 2 sentences). -/
theorem C9_witness :
    count_repeated_phrases [] = 0 ∧ analyze_structure [] = 0 :=
  ⟨(C9_degenerate_inputs []).1 (by decide),
    (C9_degenerate_inputs []).2.1 (by decide)⟩
